import Mathlib

/-!
Verification of the desktop service-control layer
(`apps/desktop/src-tauri/src/lib.rs`).

The file embeds the three Tauri commands (`start_services`, `stop_services`,
`check_status`), the command invocations they build, and the tray menu / tray
icon event handlers, together with a faithful model of Rust's
`String::from_utf8_lossy` (maximal-subpart replacement with U+FFFD), and
proves or refutes the specification claims about them.
-/

/-- Is `b` a UTF-8 continuation byte (`0x80..=0xBF`)? -/
def isCont (b : Nat) : Bool := 0x80 ≤ b && b ≤ 0xBF

/-- Admissible second byte of a three-byte sequence headed by `b`
(mirrors the range table of Rust's UTF-8 validator: `(0xE0, 0xA0..=0xBF)`,
`(0xE1..=0xEC, 0x80..=0xBF)`, `(0xED, 0x80..=0x9F)`, `(0xEE..=0xEF, 0x80..=0xBF)`). -/
def utf8Second3 (b b1 : Nat) : Bool :=
  if b = 0xE0 then 0xA0 ≤ b1 && b1 ≤ 0xBF
  else if b = 0xED then 0x80 ≤ b1 && b1 ≤ 0x9F
  else isCont b1

/-- Admissible second byte of a four-byte sequence headed by `b`
(`(0xF0, 0x90..=0xBF)`, `(0xF1..=0xF3, 0x80..=0xBF)`, `(0xF4, 0x80..=0x8F)`). -/
def utf8Second4 (b b1 : Nat) : Bool :=
  if b = 0xF0 then 0x90 ≤ b1 && b1 ≤ 0xBF
  else if b = 0xF4 then 0x80 ≤ b1 && b1 ≤ 0x8F
  else isCont b1

/-- Scalar value of a two-byte sequence. -/
def utf8Val2 (b b1 : Nat) : Nat := (b - 0xC0) * 0x40 + (b1 - 0x80)

/-- Scalar value of a three-byte sequence. -/
def utf8Val3 (b b1 b2 : Nat) : Nat :=
  (b - 0xE0) * 0x1000 + (b1 - 0x80) * 0x40 + (b2 - 0x80)

/-- Scalar value of a four-byte sequence. -/
def utf8Val4 (b b1 b2 b3 : Nat) : Nat :=
  (b - 0xF0) * 0x40000 + (b1 - 0x80) * 0x1000 + (b2 - 0x80) * 0x40 + (b3 - 0x80)

/-- Lossy UTF-8 decoding of a byte sequence, as Rust's
`String::from_utf8_lossy`: each maximal subpart of an ill-formed subsequence
becomes one U+FFFD.  Error lengths follow Rust's validator: a bad
second/third/fourth byte invalidates only the bytes before it, and decoding
resumes at the offending byte. -/
def utf8DecodeLossy : List Nat → List Char
  | [] => []
  | b :: rest =>
    if b < 0x80 then Char.ofNat b :: utf8DecodeLossy rest
    else if 0xC2 ≤ b && b ≤ 0xDF then
      match rest with
      | b1 :: rest1 =>
        if isCont b1 then Char.ofNat (utf8Val2 b b1) :: utf8DecodeLossy rest1
        else '�' :: utf8DecodeLossy (b1 :: rest1)
      | [] => ['�']
    else if 0xE0 ≤ b && b ≤ 0xEF then
      match rest with
      | b1 :: rest1 =>
        if utf8Second3 b b1 then
          match rest1 with
          | b2 :: rest2 =>
            if isCont b2 then Char.ofNat (utf8Val3 b b1 b2) :: utf8DecodeLossy rest2
            else '�' :: utf8DecodeLossy (b2 :: rest2)
          | [] => ['�']
        else '�' :: utf8DecodeLossy (b1 :: rest1)
      | [] => ['�']
    else if 0xF0 ≤ b && b ≤ 0xF4 then
      match rest with
      | b1 :: rest1 =>
        if utf8Second4 b b1 then
          match rest1 with
          | b2 :: rest2 =>
            if isCont b2 then
              match rest2 with
              | b3 :: rest3 =>
                if isCont b3 then
                  Char.ofNat (utf8Val4 b b1 b2 b3) :: utf8DecodeLossy rest3
                else '�' :: utf8DecodeLossy (b3 :: rest3)
              | [] => ['�']
            else '�' :: utf8DecodeLossy (b2 :: rest2)
          | [] => ['�']
        else '�' :: utf8DecodeLossy (b1 :: rest1)
      | [] => ['�']
    else '�' :: utf8DecodeLossy rest
termination_by l => l.length
decreasing_by all_goals simp <;> omega

/-- UTF-8 validity of a byte sequence (mirrors Rust's `run_utf8_validation`;
branches exactly parallel to `utf8DecodeLossy`). -/
def validUtf8 : List Nat → Bool
  | [] => true
  | b :: rest =>
    if b < 0x80 then validUtf8 rest
    else if 0xC2 ≤ b && b ≤ 0xDF then
      match rest with
      | b1 :: rest1 => if isCont b1 then validUtf8 rest1 else false
      | [] => false
    else if 0xE0 ≤ b && b ≤ 0xEF then
      match rest with
      | b1 :: rest1 =>
        if utf8Second3 b b1 then
          match rest1 with
          | b2 :: rest2 => if isCont b2 then validUtf8 rest2 else false
          | [] => false
        else false
      | [] => false
    else if 0xF0 ≤ b && b ≤ 0xF4 then
      match rest with
      | b1 :: rest1 =>
        if utf8Second4 b b1 then
          match rest1 with
          | b2 :: rest2 =>
            if isCont b2 then
              match rest2 with
              | b3 :: rest3 => if isCont b3 then validUtf8 rest3 else false
              | [] => false
            else false
          | [] => false
        else false
      | [] => false
    else false

/-- Standard UTF-8 encoding of one scalar value. -/
def utf8EncodeChar (c : Char) : List Nat :=
  let n := c.toNat
  if n < 0x80 then [n]
  else if n < 0x800 then [0xC0 + n / 0x40, 0x80 + n % 0x40]
  else if n < 0x10000 then
    [0xE0 + n / 0x1000, 0x80 + (n / 0x40) % 0x40, 0x80 + n % 0x40]
  else
    [0xF0 + n / 0x40000, 0x80 + (n / 0x1000) % 0x40,
      0x80 + (n / 0x40) % 0x40, 0x80 + n % 0x40]

/-- UTF-8 encoding of a character sequence. -/
def utf8Encode (cs : List Char) : List Nat := (cs.map utf8EncodeChar).flatten

/-- The string produced by `String::from_utf8_lossy(bytes).to_string()`. -/
def utf8Lossy (bs : List Nat) : String := ⟨utf8DecodeLossy bs⟩

/-- UTF-8 byte sequence of a Lean string (the bytes a Rust `String` holds). -/
def strBytes (s : String) : List Nat := utf8Encode s.data

/-- Exit status of a finished process; the source only consults
`output.status.success()`. -/
structure ExitStatus where
  success : Bool
deriving DecidableEq, Repr

/-- Captured output of a finished process (`std::process::Output`):
exit status plus raw stdout / stderr byte buffers. -/
structure Output where
  status : ExitStatus
  stdout : List Nat
  stderr : List Nat
deriving DecidableEq, Repr

/-- Result of `Command::output()`: either the process ran to completion with
captured `Output`, or spawning failed with an OS error description `e`
(the `Err` branch of `output()`, formatted via `{}`). -/
inductive SpawnResult where
  | ran (o : Output)
  | spawnFailed (e : String)
deriving DecidableEq, Repr

/-- An invocation built by the commands: executable, argument list, and the
working directory string passed to `Command::current_dir`. -/
structure CommandInvocation where
  executable : String
  args : List String
  workingDir : String
deriving DecidableEq, Repr

/-- Invocation built by `start_services`:
`Command::new("docker").args(&["compose","up","-d"]).current_dir("../../")`. -/
def start_invocation : CommandInvocation :=
  { executable := "docker", args := ["compose", "up", "-d"], workingDir := "../../" }

/-- Invocation built by `stop_services`:
`Command::new("docker").args(&["compose","down"]).current_dir("../../")`. -/
def stop_invocation : CommandInvocation :=
  { executable := "docker", args := ["compose", "down"], workingDir := "../../" }

/-- Invocation built by `check_status`:
`Command::new("docker").args(&["compose","ps"]).current_dir("../../")`. -/
def status_invocation : CommandInvocation :=
  { executable := "docker", args := ["compose", "ps"], workingDir := "../../" }

/-- The `start_services` command body, as a function of the spawn outcome:
on spawn failure, `Err(format!("Failed to execute docker compose: {}", e))`;
if the process ran, `Ok(from_utf8_lossy(stdout))` when `status.success()` and
`Err(from_utf8_lossy(stderr))` otherwise. -/
def start_services : SpawnResult → Except String String
  | .spawnFailed e => .error ("Failed to execute docker compose: " ++ e)
  | .ran o =>
    if o.status.success then .ok (utf8Lossy o.stdout)
    else .error (utf8Lossy o.stderr)

/-- The `stop_services` command body, same shape as `start_services`. -/
def stop_services : SpawnResult → Except String String
  | .spawnFailed e => .error ("Failed to execute docker compose: " ++ e)
  | .ran o =>
    if o.status.success then .ok (utf8Lossy o.stdout)
    else .error (utf8Lossy o.stderr)

/-- The `check_status` command body: on spawn failure,
`Err(format!("Failed to check status: {}", e))`; if the process ran,
`Ok(from_utf8_lossy(stdout))` unconditionally (no inspection of the status). -/
def check_status : SpawnResult → Except String String
  | .spawnFailed e => .error ("Failed to check status: " ++ e)
  | .ran o => .ok (utf8Lossy o.stdout)

/-- A main window handle (`WebviewWindow`), identified by its label. -/
structure WebviewWindow where
  label : String
deriving DecidableEq, Repr

/-- Observable effects of the event handlers in `setup_tray`. -/
inductive TrayAction where
  | exitApp (code : Nat)
  | windowShow
  | windowSetFocus
  | spawnStartServices
  | spawnStopServices
deriving DecidableEq, Repr

/-- Mouse buttons of tray icon click events. -/
inductive MouseButton where
  | left
  | right
  | middle
deriving DecidableEq, Repr

/-- Button states of tray icon click events. -/
inductive MouseButtonState where
  | up
  | down
deriving DecidableEq, Repr

/-- Tray icon events the handler matches on (`TrayIconEvent::Click` with a
button and button state, or anything else). -/
inductive TrayIconEvent where
  | click (button : MouseButton) (buttonState : MouseButtonState)
  | other
deriving DecidableEq, Repr

/-- The `on_menu_event` closure of `setup_tray`, as a function of the menu
event id and of the result of `app.get_webview_window("main")`. -/
def on_menu_event (id : String) (mainWindow : Option WebviewWindow) : List TrayAction :=
  if id = "quit" then [.exitApp 0]
  else if id = "show" then
    match mainWindow with
    | some _ => [.windowShow, .windowSetFocus]
    | none => []
  else if id = "start" then [.spawnStartServices]
  else if id = "stop" then [.spawnStopServices]
  else []

/-- The `on_tray_icon_event` closure of `setup_tray`: only a left-button
release (`MouseButton::Left`, `MouseButtonState::Up`) shows and focuses the
main window when it exists; every other event does nothing. -/
def on_tray_icon_event (e : TrayIconEvent) (mainWindow : Option WebviewWindow) : List TrayAction :=
  match e with
  | .click .left .up =>
    (match mainWindow with
     | some _ => [.windowShow, .windowSetFocus]
     | none => [])
  | _ => []

/-- A path string is absolute when it does not need resolution against the
process working directory (POSIX: begins with the separator). -/
def isAbsolutePath (s : String) : Bool := s.data.head? = some '/'

/-- A UI event delivered to the handlers installed by `setup_tray`: a menu
event carrying its id, or a tray icon event. -/
inductive UiEvent where
  | menu (id : String)
  | trayIcon (e : TrayIconEvent)
deriving DecidableEq, Repr

/-- Dispatch one UI event to the handler `setup_tray` installed for it. -/
def handleEvent (mainWindow : Option WebviewWindow) : UiEvent → List TrayAction
  | .menu id => on_menu_event id mainWindow
  | .trayIcon e => on_tray_icon_event e mainWindow

/-- Does an action terminate the process (`app.exit`)? -/
def isExit : TrayAction → Bool
  | .exitApp _ => true
  | _ => false

/-- Modelled from the spec: the event dispatch loop is the external runtime
(the windowing/menu toolkit), not code of this repository.  Per the spec it
dispatches pending events in order and, once a handler terminates the process
(`Quit` → terminal state), no further menu or tray event is ever dispatched.
Returns the sequence of dispatched events with the actions each produced. -/
def dispatchEvents (mainWindow : Option WebviewWindow) :
    List UiEvent → List (UiEvent × List TrayAction)
  | [] => []
  | e :: rest =>
    let acts := handleEvent mainWindow e
    (e, acts) :: (if acts.any isExit then [] else dispatchEvents mainWindow rest)

/-- Round-trip of `Char.ofNat` on valid scalar values. -/
theorem charOfNat_toNat {n : Nat} (h : n.isValidChar) : (Char.ofNat n).toNat = n := by
  unfold Char.ofNat
  split
  · rfl
  · exact absurd h (by assumption)

/-- Encoding an ASCII scalar reproduces its byte. -/
theorem utf8EncodeChar_ascii {b : Nat} (h : b < 0x80) :
    utf8EncodeChar (Char.ofNat b) = [b] := by
  have hv : b.isValidChar := Or.inl (by omega)
  simp [utf8EncodeChar, charOfNat_toNat hv, h]

/-- Encoding the scalar of a well-formed two-byte sequence reproduces it. -/
theorem utf8EncodeChar_two {b b1 : Nat} (hb : 0xC2 ≤ b) (hb' : b ≤ 0xDF)
    (h1 : isCont b1 = true) : utf8EncodeChar (Char.ofNat (utf8Val2 b b1)) = [b, b1] := by
  have h1' : 0x80 ≤ b1 ∧ b1 ≤ 0xBF := by simpa [isCont] using h1
  have hn : utf8Val2 b b1 = (b - 0xC0) * 0x40 + (b1 - 0x80) := rfl
  have hv : (utf8Val2 b b1).isValidChar := Or.inl (by omega)
  simp only [utf8EncodeChar, charOfNat_toNat hv]
  rw [if_neg (by omega), if_pos (by omega)]
  simp only [List.cons.injEq, and_true]
  constructor <;> omega

/-- Encoding the scalar of a well-formed three-byte sequence reproduces it. -/
theorem utf8EncodeChar_three {b b1 b2 : Nat} (hb : 0xE0 ≤ b) (hb' : b ≤ 0xEF)
    (h1 : utf8Second3 b b1 = true) (h2 : isCont b2 = true) :
    utf8EncodeChar (Char.ofNat (utf8Val3 b b1 b2)) = [b, b1, b2] := by
  have h2' : 0x80 ≤ b2 ∧ b2 ≤ 0xBF := by simpa [isCont] using h2
  have hn : utf8Val3 b b1 b2 = (b - 0xE0) * 0x1000 + (b1 - 0x80) * 0x40 + (b2 - 0x80) := rfl
  have h1' : (b = 0xE0 ∧ 0xA0 ≤ b1 ∧ b1 ≤ 0xBF) ∨
      (b = 0xED ∧ 0x80 ≤ b1 ∧ b1 ≤ 0x9F) ∨
      (b ≠ 0xE0 ∧ b ≠ 0xED ∧ 0x80 ≤ b1 ∧ b1 ≤ 0xBF) := by
    unfold utf8Second3 at h1
    split at h1
    next h => exact Or.inl ⟨h, by simpa using h1⟩
    next h =>
      split at h1
      next h' => exact Or.inr (Or.inl ⟨h', by simpa using h1⟩)
      next h' => exact Or.inr (Or.inr ⟨h, h', by simpa [isCont] using h1⟩)
  have hb1 : 0x80 ≤ b1 ∧ b1 ≤ 0xBF := by
    rcases h1' with ⟨_, h⟩ | ⟨_, h⟩ | ⟨_, _, h⟩ <;> omega
  have hlow : 0x800 ≤ utf8Val3 b b1 b2 := by
    rcases h1' with ⟨he, h⟩ | ⟨he, h⟩ | ⟨hne, hnd, h⟩ <;> omega
  have hv : (utf8Val3 b b1 b2).isValidChar := by
    rcases h1' with ⟨he, h⟩ | ⟨he, h⟩ | ⟨hne, hnd, h⟩
    · exact Or.inl (by omega)
    · exact Or.inl (by omega)
    · rcases Nat.lt_or_ge b 0xED with hlt | hge
      · exact Or.inl (by omega)
      · exact Or.inr ⟨by omega, by omega⟩
  simp only [utf8EncodeChar, charOfNat_toNat hv]
  rw [if_neg (by omega), if_neg (by omega), if_pos (by omega)]
  simp only [List.cons.injEq, and_true]
  refine ⟨?_, ?_, ?_⟩ <;> omega

/-- Encoding the scalar of a well-formed four-byte sequence reproduces it. -/
theorem utf8EncodeChar_four {b b1 b2 b3 : Nat} (hb : 0xF0 ≤ b) (hb' : b ≤ 0xF4)
    (h1 : utf8Second4 b b1 = true) (h2 : isCont b2 = true) (h3 : isCont b3 = true) :
    utf8EncodeChar (Char.ofNat (utf8Val4 b b1 b2 b3)) = [b, b1, b2, b3] := by
  have h2' : 0x80 ≤ b2 ∧ b2 ≤ 0xBF := by simpa [isCont] using h2
  have h3' : 0x80 ≤ b3 ∧ b3 ≤ 0xBF := by simpa [isCont] using h3
  have hn : utf8Val4 b b1 b2 b3 =
      (b - 0xF0) * 0x40000 + (b1 - 0x80) * 0x1000 + (b2 - 0x80) * 0x40 + (b3 - 0x80) := rfl
  have h1' : (b = 0xF0 ∧ 0x90 ≤ b1 ∧ b1 ≤ 0xBF) ∨
      (b = 0xF4 ∧ 0x80 ≤ b1 ∧ b1 ≤ 0x8F) ∨
      (b ≠ 0xF0 ∧ b ≠ 0xF4 ∧ 0x80 ≤ b1 ∧ b1 ≤ 0xBF) := by
    unfold utf8Second4 at h1
    split at h1
    next h => exact Or.inl ⟨h, by simpa using h1⟩
    next h =>
      split at h1
      next h' => exact Or.inr (Or.inl ⟨h', by simpa using h1⟩)
      next h' => exact Or.inr (Or.inr ⟨h, h', by simpa [isCont] using h1⟩)
  have hb1 : 0x80 ≤ b1 ∧ b1 ≤ 0xBF := by
    rcases h1' with ⟨_, h⟩ | ⟨_, h⟩ | ⟨_, _, h⟩ <;> omega
  have hlow : 0x10000 ≤ utf8Val4 b b1 b2 b3 := by
    rcases h1' with ⟨he, h⟩ | ⟨he, h⟩ | ⟨hne, hnd, h⟩ <;> omega
  have hhigh : utf8Val4 b b1 b2 b3 < 0x110000 := by
    rcases h1' with ⟨he, h⟩ | ⟨he, h⟩ | ⟨hne, hnd, h⟩ <;> omega
  have hv : (utf8Val4 b b1 b2 b3).isValidChar := Or.inr ⟨by omega, by omega⟩
  simp only [utf8EncodeChar, charOfNat_toNat hv]
  rw [if_neg (by omega), if_neg (by omega), if_neg (by omega)]
  simp only [List.cons.injEq, and_true]
  refine ⟨?_, ?_, ?_, ?_⟩ <;> omega

/-- Decoding the empty byte sequence. -/
theorem decode_nil : utf8DecodeLossy [] = [] := by
  rw [utf8DecodeLossy.eq_def]

/-- Decoding at an ASCII byte. -/
theorem decode_ascii {b : Nat} (rest : List Nat) (h : b < 0x80) :
    utf8DecodeLossy (b :: rest) = Char.ofNat b :: utf8DecodeLossy rest := by
  rw [utf8DecodeLossy.eq_def]
  simp [h]

/-- Decoding a well-formed two-byte sequence. -/
theorem decode_two_ok {b b1 : Nat} (rest : List Nat) (hb : 0xC2 ≤ b) (hb' : b ≤ 0xDF)
    (h1 : isCont b1 = true) :
    utf8DecodeLossy (b :: b1 :: rest) = Char.ofNat (utf8Val2 b b1) :: utf8DecodeLossy rest := by
  rw [utf8DecodeLossy.eq_def]
  simp [show ¬ b < 0x80 by omega, hb, hb', h1]

/-- Two-byte head with ill-formed continuation: replace the head only. -/
theorem decode_two_bad {b b1 : Nat} (rest : List Nat) (hb : 0xC2 ≤ b) (hb' : b ≤ 0xDF)
    (h1 : isCont b1 = false) :
    utf8DecodeLossy (b :: b1 :: rest) = '�' :: utf8DecodeLossy (b1 :: rest) := by
  rw [utf8DecodeLossy.eq_def]
  simp [show ¬ b < 0x80 by omega, hb, hb', h1]

/-- Two-byte head at end of input. -/
theorem decode_two_eof {b : Nat} (hb : 0xC2 ≤ b) (hb' : b ≤ 0xDF) :
    utf8DecodeLossy [b] = ['�'] := by
  rw [utf8DecodeLossy.eq_def]
  simp [show ¬ b < 0x80 by omega, hb, hb']

/-- Decoding a well-formed three-byte sequence. -/
theorem decode_three_ok {b b1 b2 : Nat} (rest : List Nat) (hb : 0xE0 ≤ b) (hb' : b ≤ 0xEF)
    (h1 : utf8Second3 b b1 = true) (h2 : isCont b2 = true) :
    utf8DecodeLossy (b :: b1 :: b2 :: rest) =
      Char.ofNat (utf8Val3 b b1 b2) :: utf8DecodeLossy rest := by
  rw [utf8DecodeLossy.eq_def]
  simp [show ¬ b < 0x80 by omega, show ¬ (0xC2 ≤ b ∧ b ≤ 0xDF) by omega, hb, hb', h1, h2]

/-- Three-byte head with ill-formed second byte: replace the head only. -/
theorem decode_three_bad2 {b b1 : Nat} (rest : List Nat) (hb : 0xE0 ≤ b) (hb' : b ≤ 0xEF)
    (h1 : utf8Second3 b b1 = false) :
    utf8DecodeLossy (b :: b1 :: rest) = '�' :: utf8DecodeLossy (b1 :: rest) := by
  rw [utf8DecodeLossy.eq_def]
  simp [show ¬ b < 0x80 by omega, show ¬ (0xC2 ≤ b ∧ b ≤ 0xDF) by omega, hb, hb', h1]

/-- Three-byte head with ill-formed third byte: replace the first two bytes. -/
theorem decode_three_bad3 {b b1 b2 : Nat} (rest : List Nat) (hb : 0xE0 ≤ b) (hb' : b ≤ 0xEF)
    (h1 : utf8Second3 b b1 = true) (h2 : isCont b2 = false) :
    utf8DecodeLossy (b :: b1 :: b2 :: rest) = '�' :: utf8DecodeLossy (b2 :: rest) := by
  rw [utf8DecodeLossy.eq_def]
  simp [show ¬ b < 0x80 by omega, show ¬ (0xC2 ≤ b ∧ b ≤ 0xDF) by omega, hb, hb', h1, h2]

/-- Three-byte head alone at end of input. -/
theorem decode_three_eof1 {b : Nat} (hb : 0xE0 ≤ b) (hb' : b ≤ 0xEF) :
    utf8DecodeLossy [b] = ['�'] := by
  rw [utf8DecodeLossy.eq_def]
  simp [show ¬ b < 0x80 by omega, show ¬ (0xC2 ≤ b ∧ b ≤ 0xDF) by omega, hb, hb']

/-- Three-byte head with good second byte at end of input. -/
theorem decode_three_eof2 {b b1 : Nat} (hb : 0xE0 ≤ b) (hb' : b ≤ 0xEF)
    (h1 : utf8Second3 b b1 = true) :
    utf8DecodeLossy [b, b1] = ['�'] := by
  rw [utf8DecodeLossy.eq_def]
  simp [show ¬ b < 0x80 by omega, show ¬ (0xC2 ≤ b ∧ b ≤ 0xDF) by omega, hb, hb', h1]

/-- Decoding a well-formed four-byte sequence. -/
theorem decode_four_ok {b b1 b2 b3 : Nat} (rest : List Nat) (hb : 0xF0 ≤ b) (hb' : b ≤ 0xF4)
    (h1 : utf8Second4 b b1 = true) (h2 : isCont b2 = true) (h3 : isCont b3 = true) :
    utf8DecodeLossy (b :: b1 :: b2 :: b3 :: rest) =
      Char.ofNat (utf8Val4 b b1 b2 b3) :: utf8DecodeLossy rest := by
  rw [utf8DecodeLossy.eq_def]
  simp [show ¬ b < 0x80 by omega, show ¬ (0xC2 ≤ b ∧ b ≤ 0xDF) by omega,
    show ¬ (0xE0 ≤ b ∧ b ≤ 0xEF) by omega, hb, hb', h1, h2, h3]

/-- Four-byte head with ill-formed second byte: replace the head only. -/
theorem decode_four_bad2 {b b1 : Nat} (rest : List Nat) (hb : 0xF0 ≤ b) (hb' : b ≤ 0xF4)
    (h1 : utf8Second4 b b1 = false) :
    utf8DecodeLossy (b :: b1 :: rest) = '�' :: utf8DecodeLossy (b1 :: rest) := by
  rw [utf8DecodeLossy.eq_def]
  simp [show ¬ b < 0x80 by omega, show ¬ (0xC2 ≤ b ∧ b ≤ 0xDF) by omega,
    show ¬ (0xE0 ≤ b ∧ b ≤ 0xEF) by omega, hb, hb', h1]

/-- Four-byte head with ill-formed third byte: replace the first two bytes. -/
theorem decode_four_bad3 {b b1 b2 : Nat} (rest : List Nat) (hb : 0xF0 ≤ b) (hb' : b ≤ 0xF4)
    (h1 : utf8Second4 b b1 = true) (h2 : isCont b2 = false) :
    utf8DecodeLossy (b :: b1 :: b2 :: rest) = '�' :: utf8DecodeLossy (b2 :: rest) := by
  rw [utf8DecodeLossy.eq_def]
  simp [show ¬ b < 0x80 by omega, show ¬ (0xC2 ≤ b ∧ b ≤ 0xDF) by omega,
    show ¬ (0xE0 ≤ b ∧ b ≤ 0xEF) by omega, hb, hb', h1, h2]

/-- Four-byte head with ill-formed fourth byte: replace the first three bytes. -/
theorem decode_four_bad4 {b b1 b2 b3 : Nat} (rest : List Nat) (hb : 0xF0 ≤ b) (hb' : b ≤ 0xF4)
    (h1 : utf8Second4 b b1 = true) (h2 : isCont b2 = true) (h3 : isCont b3 = false) :
    utf8DecodeLossy (b :: b1 :: b2 :: b3 :: rest) = '�' :: utf8DecodeLossy (b3 :: rest) := by
  rw [utf8DecodeLossy.eq_def]
  simp [show ¬ b < 0x80 by omega, show ¬ (0xC2 ≤ b ∧ b ≤ 0xDF) by omega,
    show ¬ (0xE0 ≤ b ∧ b ≤ 0xEF) by omega, hb, hb', h1, h2, h3]

/-- Four-byte head alone at end of input. -/
theorem decode_four_eof1 {b : Nat} (hb : 0xF0 ≤ b) (hb' : b ≤ 0xF4) :
    utf8DecodeLossy [b] = ['�'] := by
  rw [utf8DecodeLossy.eq_def]
  simp [show ¬ b < 0x80 by omega, show ¬ (0xC2 ≤ b ∧ b ≤ 0xDF) by omega,
    show ¬ (0xE0 ≤ b ∧ b ≤ 0xEF) by omega, hb, hb']

/-- Four-byte head with good second byte at end of input. -/
theorem decode_four_eof2 {b b1 : Nat} (hb : 0xF0 ≤ b) (hb' : b ≤ 0xF4)
    (h1 : utf8Second4 b b1 = true) :
    utf8DecodeLossy [b, b1] = ['�'] := by
  rw [utf8DecodeLossy.eq_def]
  simp [show ¬ b < 0x80 by omega, show ¬ (0xC2 ≤ b ∧ b ≤ 0xDF) by omega,
    show ¬ (0xE0 ≤ b ∧ b ≤ 0xEF) by omega, hb, hb', h1]

/-- Four-byte head with good second and third bytes at end of input. -/
theorem decode_four_eof3 {b b1 b2 : Nat} (hb : 0xF0 ≤ b) (hb' : b ≤ 0xF4)
    (h1 : utf8Second4 b b1 = true) (h2 : isCont b2 = true) :
    utf8DecodeLossy [b, b1, b2] = ['�'] := by
  rw [utf8DecodeLossy.eq_def]
  simp [show ¬ b < 0x80 by omega, show ¬ (0xC2 ≤ b ∧ b ≤ 0xDF) by omega,
    show ¬ (0xE0 ≤ b ∧ b ≤ 0xEF) by omega, hb, hb', h1, h2]

/-- A byte that can head no sequence (`0x80..=0xC1` or `0xF5..`): replaced alone. -/
theorem decode_other {b : Nat} (rest : List Nat) (h0 : ¬ b < 0x80)
    (hA : ¬ (0xC2 ≤ b ∧ b ≤ 0xDF)) (hB : ¬ (0xE0 ≤ b ∧ b ≤ 0xEF))
    (hC : ¬ (0xF0 ≤ b ∧ b ≤ 0xF4)) :
    utf8DecodeLossy (b :: rest) = '�' :: utf8DecodeLossy rest := by
  rw [utf8DecodeLossy.eq_def]
  simp only [Bool.and_eq_true, decide_eq_true_eq]
  rw [if_neg h0, if_neg hA, if_neg hB, if_neg hC]

/-- Validator branch lemmas, parallel to the decoder ones. -/
theorem valid_nil : validUtf8 [] = true := by
  rw [validUtf8.eq_def]

/-- Validator at an ASCII byte. -/
theorem valid_ascii {b : Nat} (rest : List Nat) (h : b < 0x80) :
    validUtf8 (b :: rest) = validUtf8 rest := by
  rw [validUtf8.eq_def]
  simp [h]

/-- Validator on a well-formed two-byte sequence. -/
theorem valid_two_ok {b b1 : Nat} (rest : List Nat) (hb : 0xC2 ≤ b) (hb' : b ≤ 0xDF)
    (h1 : isCont b1 = true) : validUtf8 (b :: b1 :: rest) = validUtf8 rest := by
  rw [validUtf8.eq_def]
  simp [show ¬ b < 0x80 by omega, hb, hb', h1]

/-- Validator on a two-byte head with bad continuation. -/
theorem valid_two_bad {b b1 : Nat} (rest : List Nat) (hb : 0xC2 ≤ b) (hb' : b ≤ 0xDF)
    (h1 : isCont b1 = false) : validUtf8 (b :: b1 :: rest) = false := by
  rw [validUtf8.eq_def]
  simp [show ¬ b < 0x80 by omega, hb, hb', h1]

/-- Validator on a two-byte head at end of input. -/
theorem valid_two_eof {b : Nat} (hb : 0xC2 ≤ b) (hb' : b ≤ 0xDF) :
    validUtf8 [b] = false := by
  rw [validUtf8.eq_def]
  simp [show ¬ b < 0x80 by omega, hb, hb']

/-- Validator on a well-formed three-byte sequence. -/
theorem valid_three_ok {b b1 b2 : Nat} (rest : List Nat) (hb : 0xE0 ≤ b) (hb' : b ≤ 0xEF)
    (h1 : utf8Second3 b b1 = true) (h2 : isCont b2 = true) :
    validUtf8 (b :: b1 :: b2 :: rest) = validUtf8 rest := by
  rw [validUtf8.eq_def]
  simp [show ¬ b < 0x80 by omega, show ¬ (0xC2 ≤ b ∧ b ≤ 0xDF) by omega, hb, hb', h1, h2]

/-- Validator on a three-byte head with bad second byte. -/
theorem valid_three_bad2 {b b1 : Nat} (rest : List Nat) (hb : 0xE0 ≤ b) (hb' : b ≤ 0xEF)
    (h1 : utf8Second3 b b1 = false) : validUtf8 (b :: b1 :: rest) = false := by
  rw [validUtf8.eq_def]
  simp [show ¬ b < 0x80 by omega, show ¬ (0xC2 ≤ b ∧ b ≤ 0xDF) by omega, hb, hb', h1]

/-- Validator on a three-byte head with bad third byte. -/
theorem valid_three_bad3 {b b1 b2 : Nat} (rest : List Nat) (hb : 0xE0 ≤ b) (hb' : b ≤ 0xEF)
    (h1 : utf8Second3 b b1 = true) (h2 : isCont b2 = false) :
    validUtf8 (b :: b1 :: b2 :: rest) = false := by
  rw [validUtf8.eq_def]
  simp [show ¬ b < 0x80 by omega, show ¬ (0xC2 ≤ b ∧ b ≤ 0xDF) by omega, hb, hb', h1, h2]

/-- Validator on a three-byte head alone at end of input. -/
theorem valid_three_eof1 {b : Nat} (hb : 0xE0 ≤ b) (hb' : b ≤ 0xEF) :
    validUtf8 [b] = false := by
  rw [validUtf8.eq_def]
  simp [show ¬ b < 0x80 by omega, show ¬ (0xC2 ≤ b ∧ b ≤ 0xDF) by omega, hb, hb']

/-- Validator on a three-byte head with good second byte at end of input. -/
theorem valid_three_eof2 {b b1 : Nat} (hb : 0xE0 ≤ b) (hb' : b ≤ 0xEF)
    (h1 : utf8Second3 b b1 = true) : validUtf8 [b, b1] = false := by
  rw [validUtf8.eq_def]
  simp [show ¬ b < 0x80 by omega, show ¬ (0xC2 ≤ b ∧ b ≤ 0xDF) by omega, hb, hb', h1]

/-- Validator on a well-formed four-byte sequence. -/
theorem valid_four_ok {b b1 b2 b3 : Nat} (rest : List Nat) (hb : 0xF0 ≤ b) (hb' : b ≤ 0xF4)
    (h1 : utf8Second4 b b1 = true) (h2 : isCont b2 = true) (h3 : isCont b3 = true) :
    validUtf8 (b :: b1 :: b2 :: b3 :: rest) = validUtf8 rest := by
  rw [validUtf8.eq_def]
  simp [show ¬ b < 0x80 by omega, show ¬ (0xC2 ≤ b ∧ b ≤ 0xDF) by omega,
    show ¬ (0xE0 ≤ b ∧ b ≤ 0xEF) by omega, hb, hb', h1, h2, h3]

/-- Validator on a four-byte head with bad second byte. -/
theorem valid_four_bad2 {b b1 : Nat} (rest : List Nat) (hb : 0xF0 ≤ b) (hb' : b ≤ 0xF4)
    (h1 : utf8Second4 b b1 = false) : validUtf8 (b :: b1 :: rest) = false := by
  rw [validUtf8.eq_def]
  simp [show ¬ b < 0x80 by omega, show ¬ (0xC2 ≤ b ∧ b ≤ 0xDF) by omega,
    show ¬ (0xE0 ≤ b ∧ b ≤ 0xEF) by omega, hb, hb', h1]

/-- Validator on a four-byte head with bad third byte. -/
theorem valid_four_bad3 {b b1 b2 : Nat} (rest : List Nat) (hb : 0xF0 ≤ b) (hb' : b ≤ 0xF4)
    (h1 : utf8Second4 b b1 = true) (h2 : isCont b2 = false) :
    validUtf8 (b :: b1 :: b2 :: rest) = false := by
  rw [validUtf8.eq_def]
  simp [show ¬ b < 0x80 by omega, show ¬ (0xC2 ≤ b ∧ b ≤ 0xDF) by omega,
    show ¬ (0xE0 ≤ b ∧ b ≤ 0xEF) by omega, hb, hb', h1, h2]

/-- Validator on a four-byte head with bad fourth byte. -/
theorem valid_four_bad4 {b b1 b2 b3 : Nat} (rest : List Nat) (hb : 0xF0 ≤ b) (hb' : b ≤ 0xF4)
    (h1 : utf8Second4 b b1 = true) (h2 : isCont b2 = true) (h3 : isCont b3 = false) :
    validUtf8 (b :: b1 :: b2 :: b3 :: rest) = false := by
  rw [validUtf8.eq_def]
  simp [show ¬ b < 0x80 by omega, show ¬ (0xC2 ≤ b ∧ b ≤ 0xDF) by omega,
    show ¬ (0xE0 ≤ b ∧ b ≤ 0xEF) by omega, hb, hb', h1, h2, h3]

/-- Validator on a four-byte head alone at end of input. -/
theorem valid_four_eof1 {b : Nat} (hb : 0xF0 ≤ b) (hb' : b ≤ 0xF4) :
    validUtf8 [b] = false := by
  rw [validUtf8.eq_def]
  simp [show ¬ b < 0x80 by omega, show ¬ (0xC2 ≤ b ∧ b ≤ 0xDF) by omega,
    show ¬ (0xE0 ≤ b ∧ b ≤ 0xEF) by omega, hb, hb']

/-- Validator on a four-byte head with good second byte at end of input. -/
theorem valid_four_eof2 {b b1 : Nat} (hb : 0xF0 ≤ b) (hb' : b ≤ 0xF4)
    (h1 : utf8Second4 b b1 = true) : validUtf8 [b, b1] = false := by
  rw [validUtf8.eq_def]
  simp [show ¬ b < 0x80 by omega, show ¬ (0xC2 ≤ b ∧ b ≤ 0xDF) by omega,
    show ¬ (0xE0 ≤ b ∧ b ≤ 0xEF) by omega, hb, hb', h1]

/-- Validator on a four-byte head with good second and third bytes at EOF. -/
theorem valid_four_eof3 {b b1 b2 : Nat} (hb : 0xF0 ≤ b) (hb' : b ≤ 0xF4)
    (h1 : utf8Second4 b b1 = true) (h2 : isCont b2 = true) :
    validUtf8 [b, b1, b2] = false := by
  rw [validUtf8.eq_def]
  simp [show ¬ b < 0x80 by omega, show ¬ (0xC2 ≤ b ∧ b ≤ 0xDF) by omega,
    show ¬ (0xE0 ≤ b ∧ b ≤ 0xEF) by omega, hb, hb', h1, h2]

/-- Validator on a byte that can head no sequence. -/
theorem valid_other {b : Nat} (rest : List Nat) (h0 : ¬ b < 0x80)
    (hA : ¬ (0xC2 ≤ b ∧ b ≤ 0xDF)) (hB : ¬ (0xE0 ≤ b ∧ b ≤ 0xEF))
    (hC : ¬ (0xF0 ≤ b ∧ b ≤ 0xF4)) : validUtf8 (b :: rest) = false := by
  rw [validUtf8.eq_def]
  simp only [Bool.and_eq_true, decide_eq_true_eq]
  rw [if_neg h0, if_neg hA, if_neg hB, if_neg hC]

/-- Encoding distributes over cons. -/
theorem utf8Encode_cons (c : Char) (cs : List Char) :
    utf8Encode (c :: cs) = utf8EncodeChar c ++ utf8Encode cs := by
  simp [utf8Encode]

/-- In Rust terms: whenever the input bytes are not valid UTF-8,
`from_utf8_lossy` inserts the replacement character U+FFFD. -/
theorem fffd_of_invalid (bs : List Nat) (h : validUtf8 bs = false) :
    '�' ∈ utf8DecodeLossy bs := by
  induction bs using utf8DecodeLossy.induct <;>
    simp_all [decode_nil, decode_ascii, decode_two_ok, decode_two_bad, decode_two_eof,
      decode_three_ok, decode_three_bad2, decode_three_bad3, decode_three_eof1,
      decode_three_eof2, decode_four_ok, decode_four_bad2, decode_four_bad3,
      decode_four_bad4, decode_four_eof1, decode_four_eof2, decode_four_eof3,
      decode_other, valid_nil, valid_ascii, valid_two_ok, valid_two_bad, valid_two_eof,
      valid_three_ok, valid_three_bad2, valid_three_bad3, valid_three_eof1,
      valid_three_eof2, valid_four_ok, valid_four_bad2, valid_four_bad3,
      valid_four_bad4, valid_four_eof1, valid_four_eof2, valid_four_eof3, valid_other]

/-- In Rust terms: on valid UTF-8 input, `from_utf8_lossy` is byte-for-byte
faithful — re-encoding the decoded string reproduces the input bytes. -/
theorem utf8Encode_decode (bs : List Nat) (h : validUtf8 bs = true) :
    utf8Encode (utf8DecodeLossy bs) = bs := by
  induction bs using utf8DecodeLossy.induct <;>
    simp_all [decode_nil, decode_ascii, decode_two_ok, decode_two_bad, decode_two_eof,
      decode_three_ok, decode_three_bad2, decode_three_bad3, decode_three_eof1,
      decode_three_eof2, decode_four_ok, decode_four_bad2, decode_four_bad3,
      decode_four_bad4, decode_four_eof1, decode_four_eof2, decode_four_eof3,
      decode_other, valid_nil, valid_ascii, valid_two_ok, valid_two_bad, valid_two_eof,
      valid_three_ok, valid_three_bad2, valid_three_bad3, valid_three_eof1,
      valid_three_eof2, valid_four_ok, valid_four_bad2, valid_four_bad3,
      valid_four_bad4, valid_four_eof1, valid_four_eof2, valid_four_eof3, valid_other,
      utf8Encode_cons, utf8Encode, utf8EncodeChar_ascii, utf8EncodeChar_two,
      utf8EncodeChar_three, utf8EncodeChar_four]

/-- C1 counterexample: with exit status 0 and stdout the single byte `0xFF`
(not valid UTF-8), `start_services` succeeds with the replacement character
U+FFFD, whose UTF-8 bytes differ from the captured stdout — the success
payload is not byte-for-byte the captured standard-output bytes. -/
theorem C1_counterexample :
    start_services (.ran ⟨⟨true⟩, [0xFF], []⟩) = .ok "�" ∧ strBytes "�" ≠ [0xFF] := by
  constructor
  · simp [start_services, utf8Lossy, decode_other, decode_nil]
  · decide

/-- C1 (amended): for each of the three service operations, if the external
CLI exits 0 the success payload is the lossy UTF-8 decoding of the captured
standard-output bytes, hence byte-for-byte identical to them whenever stdout
is valid UTF-8. -/
theorem C1_success_payload (o : Output) (h : o.status.success = true) :
    start_services (.ran o) = .ok (utf8Lossy o.stdout) ∧
    stop_services (.ran o) = .ok (utf8Lossy o.stdout) ∧
    check_status (.ran o) = .ok (utf8Lossy o.stdout) ∧
    (validUtf8 o.stdout = true → strBytes (utf8Lossy o.stdout) = o.stdout) := by
  refine ⟨?_, ?_, ?_, ?_⟩
  · simp [start_services, h]
  · simp [stop_services, h]
  · simp [check_status]
  · intro hv
    simpa [strBytes, utf8Lossy] using utf8Encode_decode o.stdout hv

/-- Witness for `C1_success_payload` at a concrete successful output. -/
theorem C1_success_payload_witness :
    (⟨⟨true⟩, [0x68, 0x69], []⟩ : Output).status.success = true ∧
    start_services (.ran ⟨⟨true⟩, [0x68, 0x69], []⟩) = .ok (utf8Lossy [0x68, 0x69]) :=
  ⟨rfl, (C1_success_payload ⟨⟨true⟩, [0x68, 0x69], []⟩ rfl).1⟩

/-- C2: every invocation's working directory is the literal relative path
`../../`, resolved against the process current working directory — not an
absolute path resolved from the running executable's location. -/
theorem C2_workdir_is_relative :
    start_invocation.workingDir = "../../" ∧
    stop_invocation.workingDir = "../../" ∧
    status_invocation.workingDir = "../../" ∧
    isAbsolutePath start_invocation.workingDir = false ∧
    isAbsolutePath stop_invocation.workingDir = false ∧
    isAbsolutePath status_invocation.workingDir = false := by
  refine ⟨rfl, rfl, rfl, ?_, ?_, ?_⟩ <;> decide

/-- C3: `check_status` never yields a failure outcome when the process ran:
whatever the exit status, it returns the captured stdout as a success
payload. -/
theorem C3_check_status_never_fails (o : Output) :
    check_status (.ran o) = .ok (utf8Lossy o.stdout) := by
  simp [check_status]

/-- C4 counterexample: with a non-zero exit and stderr the single byte `0xC3`
(not valid UTF-8), `start_services` fails with the replacement character
U+FFFD, whose UTF-8 bytes differ from the captured stderr — the failure
message is not byte-for-byte the captured standard-error bytes. -/
theorem C4_counterexample :
    start_services (.ran ⟨⟨false⟩, [], [0xC3]⟩) = .error "�" ∧ strBytes "�" ≠ [0xC3] := by
  constructor
  · simp [start_services, utf8Lossy, decode_two_eof, decode_nil]
  · decide

/-- C4 (amended): for `start_services` and `stop_services`, when the process
runs and exits non-zero the failure message is the lossy UTF-8 decoding of
the captured standard-error bytes, hence byte-for-byte identical to them
whenever stderr is valid UTF-8. -/
theorem C4_failure_payload (o : Output) (h : o.status.success = false) :
    start_services (.ran o) = .error (utf8Lossy o.stderr) ∧
    stop_services (.ran o) = .error (utf8Lossy o.stderr) ∧
    (validUtf8 o.stderr = true → strBytes (utf8Lossy o.stderr) = o.stderr) := by
  refine ⟨?_, ?_, ?_⟩
  · simp [start_services, h]
  · simp [stop_services, h]
  · intro hv
    simpa [strBytes, utf8Lossy] using utf8Encode_decode o.stderr hv

/-- Witness for `C4_failure_payload` at a concrete failed output. -/
theorem C4_failure_payload_witness :
    (⟨⟨false⟩, [], [0x6E, 0x6F]⟩ : Output).status.success = false ∧
    start_services (.ran ⟨⟨false⟩, [], [0x6E, 0x6F]⟩) = .error (utf8Lossy [0x6E, 0x6F]) :=
  ⟨rfl, (C4_failure_payload ⟨⟨false⟩, [], [0x6E, 0x6F]⟩ rfl).1⟩

/-- C5: a spawn failure makes `start_services`/`stop_services` fail with the
fixed format string carrying the underlying OS error description, while a
process that ran and exited non-zero is reported through the captured stderr
instead — the two error paths produce their results from different inputs of
`SpawnResult` and different message sources. -/
theorem C5_spawn_error_distinct (e : String) (o : Output) (h : o.status.success = false) :
    start_services (.spawnFailed e) = .error ("Failed to execute docker compose: " ++ e) ∧
    stop_services (.spawnFailed e) = .error ("Failed to execute docker compose: " ++ e) ∧
    start_services (.ran o) = .error (utf8Lossy o.stderr) ∧
    stop_services (.ran o) = .error (utf8Lossy o.stderr) := by
  refine ⟨rfl, rfl, ?_, ?_⟩
  · simp [start_services, h]
  · simp [stop_services, h]

/-- Witness for `C5_spawn_error_distinct` at a concrete OS error and output. -/
theorem C5_spawn_error_distinct_witness :
    (⟨⟨false⟩, [], []⟩ : Output).status.success = false ∧
    start_services (.spawnFailed "No such file or directory (os error 2)") =
      .error ("Failed to execute docker compose: " ++
        "No such file or directory (os error 2)") :=
  ⟨rfl, (C5_spawn_error_distinct "No such file or directory (os error 2)"
    ⟨⟨false⟩, [], []⟩ rfl).1⟩

/-- C6: the three operations invoke the CLI with their fixed executable and
argument lists, in order. -/
theorem C6_fixed_arguments :
    start_invocation.executable = "docker" ∧
    start_invocation.args = ["compose", "up", "-d"] ∧
    stop_invocation.executable = "docker" ∧
    stop_invocation.args = ["compose", "down"] ∧
    status_invocation.executable = "docker" ∧
    status_invocation.args = ["compose", "ps"] :=
  ⟨rfl, rfl, rfl, rfl, rfl, rfl⟩

/-- C7: the `show` menu event and a left-button-release tray event are silent
no-ops when the main window is absent: the handler produces no action at all
(no error, no service invocation). -/
theorem C7_show_without_window_noop :
    on_menu_event "show" none = [] ∧
    on_tray_icon_event (.click .left .up) none = [] := by
  constructor
  · rfl
  · rfl

/-- C8: selecting `Quit` produces exactly the terminate action, and the
dispatch loop (modelled from the spec; the loop itself is the external
runtime) dispatches no further event after it: dispatching `quit` followed by
any pending events handles `quit` alone. -/
theorem C8_quit_halts_dispatch (w : Option WebviewWindow) (pending : List UiEvent) :
    handleEvent w (.menu "quit") = [.exitApp 0] ∧
    dispatchEvents w (.menu "quit" :: pending) = [(.menu "quit", [.exitApp 0])] := by
  constructor
  · rfl
  · simp [dispatchEvents, handleEvent, on_menu_event, isExit]

/-- C9: every payload of the three operations is produced by lossy UTF-8
conversion of the captured byte buffer; the conversion inserts U+FFFD
whenever the buffer is not valid UTF-8 and is byte-faithful on valid UTF-8. -/
theorem C9_lossy_conversion (o : Output) (bs : List Nat) :
    start_services (.ran o) =
      (if o.status.success = true then Except.ok (utf8Lossy o.stdout)
       else Except.error (utf8Lossy o.stderr)) ∧
    stop_services (.ran o) =
      (if o.status.success = true then Except.ok (utf8Lossy o.stdout)
       else Except.error (utf8Lossy o.stderr)) ∧
    check_status (.ran o) = .ok (utf8Lossy o.stdout) ∧
    (validUtf8 bs = false → '�' ∈ (utf8Lossy bs).data) ∧
    (validUtf8 bs = true → strBytes (utf8Lossy bs) = bs) := by
  refine ⟨rfl, rfl, rfl, ?_, ?_⟩
  · intro hv
    simpa [utf8Lossy] using fffd_of_invalid bs hv
  · intro hv
    simpa [strBytes, utf8Lossy] using utf8Encode_decode bs hv

/-- Witness for `C9_lossy_conversion`: an invalid buffer gets U+FFFD, a valid
one round-trips. -/
theorem C9_lossy_conversion_witness :
    validUtf8 [0xFF] = false ∧ '�' ∈ (utf8Lossy [0xFF]).data ∧
    validUtf8 [0x61] = true ∧ strBytes (utf8Lossy [0x61]) = [0x61] :=
  ⟨by decide,
   (C9_lossy_conversion ⟨⟨true⟩, [], []⟩ [0xFF]).2.2.2.1 (by decide),
   by decide,
   (C9_lossy_conversion ⟨⟨true⟩, [], []⟩ [0x61]).2.2.2.2 (by decide)⟩

/-- C10: `check_status` fails exactly on spawn failure, with the fixed
prefix followed by the OS error description; in every other case it
succeeds with the decoded stdout. -/
theorem C10_check_status_error_iff (e : String) (o : Output) (r : SpawnResult) :
    check_status (.spawnFailed e) = .error ("Failed to check status: " ++ e) ∧
    check_status (.ran o) = .ok (utf8Lossy o.stdout) ∧
    ((∃ m, check_status r = .error m) ↔ ∃ e', r = .spawnFailed e') := by
  refine ⟨rfl, rfl, ?_⟩
  constructor
  · rintro ⟨m, hm⟩
    cases r with
    | ran o' => simp [check_status] at hm
    | spawnFailed e' => exact ⟨e', rfl⟩
  · rintro ⟨e', rfl⟩
    exact ⟨"Failed to check status: " ++ e', rfl⟩

/-- Witness for `C10_check_status_error_iff` at concrete inputs. -/
theorem C10_check_status_error_iff_witness :
    check_status (.spawnFailed "os error 2") =
      .error ("Failed to check status: " ++ "os error 2") :=
  (C10_check_status_error_iff "os error 2" ⟨⟨true⟩, [], []⟩
    (.spawnFailed "os error 2")).1
